import Mathlib

/-!
Shallow embedding of `python-github-bot-api` (package `github_bot_api`).

Source files embedded here:
  * `token.py`    — `TokenInfo`, the refresh/cache template `RefreshableTokenSupplier.__call__`
                    and the `_is_expired` predicates of `JwtSupplier` / `InstallationTokenSupplier`.
  * `webhook.py`  — `EventHandler`, `Webhook.dispatch`.
  * `event.py`    — `Event`, `accept_event`, `InvalidRequest`.
  * `signature.py`— `compute_signature`, `check_signature`, `SignatureMismatchException`.
  * `utils.py`    — `get_mime_components`.
  * `app.py`      — `GithubApp.get_installation_token_supplier` (the memoizing dict).

External-library calls (Python stdlib `hmac`, `json`, `bytes.decode`, `fnmatch`) are not code
of this repository; they enter the embedding as function parameters (bundled in `PyEnv`) or,
for `fnmatch`, as an explicit glob matcher used to instantiate concrete scenarios.
Exceptions are embedded as `Except` values; machine time (`time.time()`) as a rational.
-/

namespace GithubBotApi

/-- Embeds `TokenInfo` from `token.py`: a token value with its expiration timestamp
(`exp`, seconds since epoch, local client time), its `type` and its string `value`. -/
structure TokenInfo where
  exp : Int
  type : String
  value : String
deriving Repr, DecidableEq

/-- Embeds `TokenInfo.auth_header`: the full `Authorization` header value. -/
def TokenInfo.auth_header (t : TokenInfo) : String :=
  t.type ++ " " ++ t.value

/-- Embeds `JwtSupplier._is_expired` from `token.py`:
`(token.exp - time.time()) <= self.threshold`.  The current machine time
`time.time()` is embedded as an integer `now` (whole seconds, like `exp` itself). -/
def JwtSupplier.is_expired (threshold : Int) (now : Int) (token : TokenInfo) : Bool :=
  decide (token.exp - now ≤ threshold)

/-- Embeds `InstallationTokenSupplier._is_expired` from `token.py`:
`(token.exp - time.time()) <= self.threshold` (textually the same test as the JWT one). -/
def InstallationTokenSupplier.is_expired (threshold : Int) (now : Int) (token : TokenInfo) : Bool :=
  decide (token.exp - now ≤ threshold)

/-- Embeds `RefreshableTokenSupplier.__call__` from `token.py` as a pure state transformer.

The Python method body is
```
with self._lock:
  if self._cached_token is not None and not self._is_expired(self._cached_token):
    return self._cached_token
  self._cached_token = self._new_token()
  assert isinstance(self._cached_token, TokenInfo), type(self)
  return self._cached_token
```
`isExpired` stands for the subclass hook `self._is_expired`, `newToken` for the outcome of
the subclass hook `self._new_token()` during this call (`.error e` when it raises `e`),
`cached` for `self._cached_token` on entry.  The result pairs the call's outcome
(returned token, or propagated exception) with `self._cached_token` on exit; a raise in
`self._new_token()` happens before the assignment, so the cache is left untouched. -/
def RefreshableTokenSupplier.call {ε : Type} (isExpired : TokenInfo → Bool)
    (newToken : Except ε TokenInfo) (cached : Option TokenInfo) :
    Except ε TokenInfo × Option TokenInfo :=
  match cached with
  | some tok =>
    if isExpired tok = false then (.ok tok, some tok)
    else
      match newToken with
      | .ok t => (.ok t, some t)
      | .error e => (.error e, some tok)
  | none =>
    match newToken with
    | .ok t => (.ok t, some t)
    | .error e => (.error e, none)

/-! ### Webhook dispatcher (`webhook.py`) -/

/-- Model of Python stdlib `fnmatch.fnmatch` (an external library called by
`Webhook.dispatch`), restricted to glob patterns built from literal characters,
`*` and `?` — bracket expressions are not modelled.  On POSIX, `fnmatch.fnmatch`
is case-sensitive literal/`*`/`?` matching for such patterns.  `globMatch pat name`
consumes the pattern structurally; at a `*` it tries every suffix of the name. -/
def globMatch : List Char → List Char → Bool
  | [], name => name.isEmpty
  | c :: ps, name =>
    if c = '*' then name.tails.any (fun suf => globMatch ps suf)
    else
      match name with
      | [] => false
      | n :: ns => (c == '?' || n == c) && globMatch ps ns

/-- String version of `globMatch`, in the argument order of `fnmatch.fnmatch(name, pat)`. -/
def fnmatch (name pattern : String) : Bool :=
  globMatch pattern.toList name.toList

/-- Embeds `Event` from `event.py`.  The `payload` is the value produced by `json.loads`;
JSON decoding is external to the repository, so the payload type is kept abstract as the
output type of the `jsonLoads` parameter (a `String` in the concrete environments below). -/
structure Event where
  name : String
  delivery_id : String
  signature : Option String
  user_agent : String
  payload : String
deriving Repr, DecidableEq

/-- Embeds `EventHandler` from `webhook.py`: an event name or fnmatch pattern paired with
the handler callable `t.Callable[[Event], bool]` (modelled pure). -/
structure EventHandler where
  event : String
  func : Event → Bool

/-- Embeds the `Webhook` dataclass from `webhook.py` (the `secret` field and the ordered
handler list; `listen` appends to `handlers`). -/
structure Webhook where
  secret : Option String
  handlers : List EventHandler

/-- Embeds the loop of `Webhook.dispatch` with its `matched` accumulator:
```
for handler in self.handlers:
  if fnmatch.fnmatch(event.name, handler.event):
    matched = True
    if handler.func(event):
      return True
else:
  logger.info(...)
return matched
```
`fm` stands for the external `fnmatch.fnmatch`.  When the loop runs out of handlers the
method returns the current value of `matched` (the logging call has no other effect). -/
def dispatchFrom (fm : String → String → Bool) (ev : Event) :
    List EventHandler → Bool → Bool
  | [], matched => matched
  | h :: rest, matched =>
    if fm ev.name h.event then
      if h.func ev then true
      else dispatchFrom fm ev rest true
    else dispatchFrom fm ev rest matched

/-- Embeds `Webhook.dispatch` from `webhook.py`: runs the handler loop starting from
`matched = False`. -/
def Webhook.dispatch (fm : String → String → Bool) (w : Webhook) (ev : Event) : Bool :=
  dispatchFrom fm ev w.handlers false

/-! ### Signature verification (`signature.py`) and event acceptance (`event.py`) -/

/-- Exceptions that can escape `accept_event` and its callees, as one closed type:
`InvalidRequest` (`event.py`), `SignatureMismatchException` (`signature.py`, carrying the
provided and the computed signature), `ValueError` (from `compute_signature` or
`get_mime_components`), a bare `RuntimeError` (the unreachable third signature branch of
`accept_event`), and errors of the external decode/JSON libraries. -/
inductive PyError where
  | invalidRequest (msg : String)
  | signatureMismatchException (provided computed : String)
  | valueError (msg : String)
  | runtimeError
  | externalError (msg : String)
deriving Repr, DecidableEq

/-- External Python functions used by `event.py` / `signature.py` that are not code of this
repository, passed in as an environment: `hmacHex algo key msg` is
`hmac.new(secret, payload, algo).hexdigest()`; `asciiEncode` is `str.encode("ascii")` on the
webhook secret; `decode enc body` is `raw_body.decode(encoding)`; `jsonLoads` is
`json.loads`.  Request bodies and encoded secrets are byte lists. -/
structure PyEnv where
  hmacHex : String → List Nat → List Nat → String
  asciiEncode : String → List Nat
  decode : String → List Nat → Except PyError String
  jsonLoads : String → Except PyError String

/-- Embeds `headers.get(key)` on the `t.Mapping[str, str]` argument of `accept_event`,
with the mapping represented as an association list (first binding wins, as in a dict
that holds each key once). -/
def hget (headers : List (String × String)) (key : String) : Option String :=
  (headers.find? (fun p => p.1 == key)).map (fun p => p.2)

/-- Python truthiness of an `Optional[str]`: `None` and the empty string are falsy. -/
def truthy : Option String → Bool
  | none => false
  | some s => !s.isEmpty

/-- Python `a or b` on two `Optional[str]` values: `a` when truthy, else `b`
(as in `signature_256 or signature_1` in `accept_event`). -/
def pyOr (a b : Option String) : Option String :=
  if truthy a then a else b

/-- Embeds Python `str.split(sep)` for a one-character separator on character lists:
splits at every occurrence of `sep`, keeping empty segments, and yields one (empty)
segment for the empty string — exactly `mime.split(';')` semantics. -/
def pySplitChar (sep : Char) : List Char → List (List Char)
  | [] => [[]]
  | c :: cs =>
    let r := pySplitChar sep cs
    if c = sep then [] :: r
    else
      match r with
      | [] => [[c]]
      | seg :: rest => (c :: seg) :: rest

/-- Embeds Python `str.split(sep)` on strings (for `mime.split(';')` in `utils.py`). -/
def pySplit (sep : Char) (s : String) : List String :=
  (pySplitChar sep s.toList).map (fun cs => String.mk cs)

/-- Embeds Python `str.strip()` on character lists: drop whitespace from both ends. -/
def pyStripChars (cs : List Char) : List Char :=
  ((cs.dropWhile Char.isWhitespace).reverse.dropWhile Char.isWhitespace).reverse

/-- Embeds Python `str.strip()` on strings (for `parts[0].strip()` in `utils.py`). -/
def pyStrip (s : String) : String :=
  String.mk (pyStripChars s.toList)

/-- Splits a character list at the first `'='`, if any: the pieces before and after it. -/
def breakAtEq : List Char → Option (List Char × List Char)
  | [] => none
  | c :: cs =>
    if c = '=' then some ([], cs)
    else
      match breakAtEq cs with
      | none => none
      | some (a, b) => some (c :: a, b)

/-- Embeds `part.partition('=')[::2]` from `utils.py`: split at the first `'='`,
returning the text before it and everything after it (`(part, '')` when there is none,
which is also what the explicit `if '=' not in part` branch of the loop appends). -/
def partitionEq (s : String) : String × String :=
  match breakAtEq s.toList with
  | none => (s, "")
  | some (a, b) => (String.mk a, String.mk b)

/-- Embeds `get_mime_components` from `utils.py`:
```
parts = mime.split(';')
if not parts or not parts[0].strip():
  raise ValueError(f'bad mimetype: {mime!r}')
parameters = []
for part in parts[1:]:
  if '=' not in part:
    parameters.append((part, ''))
  else:
    parameters.append(part.partition('=')[::2])
return parts[0].strip(), parameters
```
For a part without `'='`, `partitionEq` returns exactly `(part, '')`, so the two branches
of the loop body coincide with mapping `partitionEq` over `parts[1:]`.  Note that the
parameter keys and values are NOT stripped of whitespace.  (`{mime!r}` is embedded
without the `repr` quoting.) -/
def get_mime_components (mime : String) : Except PyError (String × List (String × String)) :=
  match pySplit ';' mime with
  | [] => .error (.valueError ("bad mimetype: " ++ mime))
  | p0 :: rest =>
    if (pyStrip p0).isEmpty then .error (.valueError ("bad mimetype: " ++ mime))
    else .ok (pyStrip p0, rest.map partitionEq)

/-- Embeds `dict(parameters).get(key, default)`: building a dict from a pair list keeps the
last binding of each key, so the lookup finds the last matching pair. -/
def dictGet (parameters : List (String × String)) (key : String) (dflt : String) : String :=
  match parameters.reverse.find? (fun p => p.1 == key) with
  | some p => p.2
  | none => dflt

/-- Embeds the selection `encoding = dict(parameters).get('encoding', 'UTF-8')` in
`accept_event` (`event.py`). -/
def selectedEncoding (parameters : List (String × String)) : String :=
  dictGet parameters "encoding" "UTF-8"

/-- Embeds `compute_signature` from `signature.py`: rejects algorithms other than
`sha1`/`sha256` with a `ValueError`, otherwise returns `"{algo}=" + hexdigest`. -/
def compute_signature (env : PyEnv) (payload : List Nat) (secret : List Nat)
    (algo : String) : Except PyError String :=
  if algo ≠ "sha1" ∧ algo ≠ "sha256" then
    .error (.valueError ("algo must be \x7bsha1, sha256\x7d, got " ++ algo))
  else
    .ok (algo ++ "=" ++ env.hmacHex algo secret payload)

/-- Embeds `check_signature` from `signature.py`: recomputes the signature and raises
`SignatureMismatchException(sig, computed)` unless `hmac.compare_digest(sig, computed)`
holds; `compare_digest` is constant-time string equality. -/
def check_signature (env : PyEnv) (sig : String) (payload : List Nat) (secret : List Nat)
    (algo : String) : Except PyError Unit :=
  match compute_signature env payload secret algo with
  | .error e => .error e
  | .ok computed =>
    if sig = computed then .ok () else .error (.signatureMismatchException sig computed)

/-- Embeds `accept_event` from `event.py`, line for line:
reads the six headers; raises `InvalidRequest('missing required headers')` when any of
`X-GitHub-Event`, `X-GitHub-Delivery`, `User-Agent`, `Content-Type` is falsy (absent or
empty); raises `InvalidRequest(...)` when a secret is configured but neither signature
header is truthy; parses the content type and requires MIME type `application/json`;
selects the body encoding; verifies the preferred signature header when a secret is
configured; decodes and JSON-parses the body; and builds the `Event` whose `signature`
field is `signature_256 or signature_1` regardless of whether a secret was configured. -/
def accept_event (env : PyEnv) (headers : List (String × String)) (raw_body : List Nat)
    (webhook_secret : Option String) : Except PyError Event :=
  let event_name := hget headers "X-GitHub-Event"
  let delivery_id := hget headers "X-GitHub-Delivery"
  let signature_1 := hget headers "X-Hub-Signature"
  let signature_256 := hget headers "X-Hub-Signature-256"
  let user_agent := hget headers "User-Agent"
  let content_type := hget headers "Content-Type"
  if !truthy event_name || !truthy delivery_id || !truthy user_agent || !truthy content_type then
    .error (.invalidRequest "missing required headers")
  else if webhook_secret.isSome && !(truthy signature_1 || truthy signature_256) then
    .error (.invalidRequest "webhook secret is configured but no signature header was received")
  else
    match get_mime_components (content_type.getD "") with
    | .error e => .error e
    | .ok (mime_type, parameters) =>
      if mime_type ≠ "application/json" then
        .error (.invalidRequest
          ("expected Content-Type: application/json, got " ++ content_type.getD ""))
      else
        let encoding := selectedEncoding parameters
        let sigCheck : Except PyError Unit :=
          match webhook_secret with
          | none => .ok ()
          | some s =>
            if truthy signature_256 then
              check_signature env (signature_256.getD "") raw_body (env.asciiEncode s) "sha256"
            else if truthy signature_1 then
              check_signature env (signature_1.getD "") raw_body (env.asciiEncode s) "sha1"
            else
              .error .runtimeError
        match sigCheck with
        | .error e => .error e
        | .ok () =>
          match env.decode encoding raw_body with
          | .error e => .error e
          | .ok decoded =>
            match env.jsonLoads decoded with
            | .error e => .error e
            | .ok payload =>
              .ok { name := event_name.getD "", delivery_id := delivery_id.getD "",
                    signature := pyOr signature_256 signature_1,
                    user_agent := user_agent.getD "", payload := payload }

/-! ### Installation-token supplier memoization (`app.py`) -/

/-- Embeds the `InstallationTokenSupplier` dataclass from `token.py` as the value stored in
the memoization dict of `GithubApp`: the shared JWT supplier (`app_jwt`, the app's single
`self._jwt_supplier`), the `installation_id`, the shared `requestor` callable
(`self.__requestor`), and the refresh `threshold` defaulting to 30.  The types of the
shared JWT supplier and of the requestor are kept abstract as parameters `J` and `R`. -/
structure InstallationTokenSupplierData (J R : Type) where
  app_jwt : J
  installation_id : Int
  requestor : R
  threshold : Int

/-- Embeds the dict `GithubApp._installation_tokens` as an association list in insertion
order (a Python dict preserves insertion order and holds each key once). -/
abbrev InstallationTokens (J R : Type) : Type :=
  List (Int × InstallationTokenSupplierData J R)

/-- Embeds `GithubApp.get_installation_token_supplier` from `app.py`:
```
with self._lock:
  return self._installation_tokens.setdefault(
    installation_id,
    InstallationTokenSupplier(self._jwt_supplier, installation_id, self.__requestor))
```
`dict.setdefault` returns the stored supplier when the key is present and otherwise
inserts the freshly constructed one (threshold left at its default 30) and returns it.
The result pairs the returned supplier with the dict after the call. -/
def GithubApp.get_installation_token_supplier {J R : Type} (app_jwt : J) (requestor : R)
    (st : InstallationTokens J R) (installation_id : Int) :
    InstallationTokenSupplierData J R × InstallationTokens J R :=
  match st.find? (fun p => p.1 == installation_id) with
  | some p => (p.2, st)
  | none =>
    let s : InstallationTokenSupplierData J R :=
      { app_jwt := app_jwt, installation_id := installation_id,
        requestor := requestor, threshold := 30 }
    (s, st ++ [(installation_id, s)])

/-- Well-formedness of the memoization dict: every stored supplier carries the
installation id it is keyed under.  This holds of the empty dict `GithubApp.__post_init__`
creates and is preserved by `get_installation_token_supplier`. -/
def wfInstallationTokens {J R : Type} (st : InstallationTokens J R) : Bool :=
  st.all (fun p => p.2.installation_id == p.1)

/-! ### Concrete scenario material -/

/-- Concrete external environment for scenarios: constant HMAC digest `"aa"`, trivial
secret encoding, a decoder ignoring the encoding, and a JSON reader returning the text. -/
def envConst : PyEnv where
  hmacHex := fun _ _ _ => "aa"
  asciiEncode := fun _ => []
  decode := fun _ _ => .ok "body"
  jsonLoads := fun s => .ok s

/-- Probing external environment whose decoder returns the encoding it was asked to use,
so the encoding selected by `accept_event` becomes observable in the Event payload. -/
def envProbe : PyEnv where
  hmacHex := fun _ _ _ => "aa"
  asciiEncode := fun _ => []
  decode := fun enc _ => .ok enc
  jsonLoads := fun s => .ok s

/-! ### Theorems -/

/-- C7: for every token `t`, time `now` and threshold, the `_is_expired` predicates of
`JwtSupplier` and `InstallationTokenSupplier` hold exactly when
`t.exp - now <= threshold`; in particular both are `false` whenever
`t.exp - now > threshold` and `true` whenever `t.exp - now <= threshold`. -/
theorem is_expired_iff_threshold (threshold : Int) (now : Int) (t : TokenInfo) :
    (JwtSupplier.is_expired threshold now t = true ↔ t.exp - now ≤ threshold) ∧
    (InstallationTokenSupplier.is_expired threshold now t = true ↔
      t.exp - now ≤ threshold) ∧
    (threshold < t.exp - now →
      JwtSupplier.is_expired threshold now t = false ∧
      InstallationTokenSupplier.is_expired threshold now t = false) := by
  refine ⟨?_, ?_, ?_⟩
  · simp [JwtSupplier.is_expired]
  · simp [InstallationTokenSupplier.is_expired]
  · intro h
    constructor
    · simp [JwtSupplier.is_expired, not_le]
      omega
    · simp [InstallationTokenSupplier.is_expired, not_le]
      omega

/-- Witness for C7 at `threshold = 30`, `now = 0`, `t.exp = 100`. -/
theorem is_expired_iff_threshold_witness :
    JwtSupplier.is_expired 30 0 ⟨100, "Bearer", "x"⟩ = false ∧
    InstallationTokenSupplier.is_expired 30 0 ⟨100, "Bearer", "x"⟩ = false :=
  (is_expired_iff_threshold 30 0 ⟨100, "Bearer", "x"⟩).2.2 (by decide)

/-- C3: when `_new_token()` raises (`newToken = .error e`) on a call that reaches the
refresh path (the cache is empty or holds an expired token), the exception propagates
unchanged and the cached token after the call is exactly the cached token before it. -/
theorem call_error_propagates_cache_unchanged {ε : Type} (isExpired : TokenInfo → Bool)
    (e : ε) (cached : Option TokenInfo)
    (hstale : ∀ t, cached = some t → isExpired t = true) :
    RefreshableTokenSupplier.call isExpired (.error e) cached = (.error e, cached) := by
  cases cached with
  | none => rfl
  | some tok =>
    have h := hstale tok rfl
    simp [RefreshableTokenSupplier.call, h]

/-- Witness for C3: an expired cached token (`exp = 0`, `now = 100`, threshold 30) and a
failing refresh leave the cache holding that same token and surface the error. -/
theorem call_error_propagates_cache_unchanged_witness :
    RefreshableTokenSupplier.call (JwtSupplier.is_expired 30 100)
      (.error ()) (some ⟨0, "Bearer", "t"⟩) = (.error (), some ⟨0, "Bearer", "t"⟩) :=
  call_error_propagates_cache_unchanged (JwtSupplier.is_expired 30 100) () (some ⟨0, "Bearer", "t"⟩)
    (by intro t ht; cases ht; decide)

/-- C2 counterexample: with no precondition on `_new_token`, the claim fails — here
`_new_token` returns a token with `exp = 0` while `now = 100` and `threshold = 30`, the
call returns that token, and `_is_expired` holds of the returned token at the very
instant of the check. -/
theorem call_can_return_expired_token :
    (RefreshableTokenSupplier.call (ε := Unit) (JwtSupplier.is_expired 30 100)
      (.ok ⟨0, "Bearer", "t"⟩) none).1 = .ok ⟨0, "Bearer", "t"⟩ ∧
    JwtSupplier.is_expired 30 100 ⟨0, "Bearer", "t"⟩ = true := by
  constructor
  · rfl
  · decide

/-- C2 (amended): the call returns a non-expired token provided `_new_token` only
produces non-expired tokens; the cache-hit path re-checks expiry, while the refresh path
returns whatever `_new_token` produced without a further check. -/
theorem call_returns_nonexpired_token {ε : Type} (isExpired : TokenInfo → Bool)
    (newToken : Except ε TokenInfo) (cached : Option TokenInfo)
    (hnew : ∀ t, newToken = .ok t → isExpired t = false)
    (t : TokenInfo) (st : Option TokenInfo)
    (h : RefreshableTokenSupplier.call isExpired newToken cached = (.ok t, st)) :
    isExpired t = false := by
  cases cached with
  | none =>
    cases hnt : newToken with
    | ok t0 =>
      rw [hnt] at h
      simp [RefreshableTokenSupplier.call] at h
      exact h.1 ▸ hnew t0 hnt
    | error e =>
      rw [hnt] at h
      simp [RefreshableTokenSupplier.call] at h
  | some tok =>
    by_cases hex : isExpired tok = false
    · simp [RefreshableTokenSupplier.call, hex] at h
      exact h.1 ▸ hex
    · cases hnt : newToken with
      | ok t0 =>
        rw [hnt] at h
        simp [RefreshableTokenSupplier.call, hex] at h
        exact h.1 ▸ hnew t0 hnt
      | error e =>
        rw [hnt] at h
        simp [RefreshableTokenSupplier.call, hex] at h

/-- Witness for the amended C2: a fresh token with `exp = 1000` at `now = 0`,
`threshold = 30` comes back non-expired. -/
theorem call_returns_nonexpired_token_witness :
    JwtSupplier.is_expired 30 0 ⟨1000, "Bearer", "t"⟩ = false :=
  call_returns_nonexpired_token (ε := Unit) (JwtSupplier.is_expired 30 0)
    (.ok ⟨1000, "Bearer", "t"⟩) none
    (by intro t ht; cases ht; decide)
    ⟨1000, "Bearer", "t"⟩ (some ⟨1000, "Bearer", "t"⟩) rfl

/-- C1: `dispatch` on an event whose name is matched by some handler but where every
matching handler returns `False` nevertheless returns `True` — the method ends in
`return matched`, contradicting both the claim and its own docstring
("Returns #True only if the event was handled by a handler"), which the trailing
log message ("goes unhandled") also reflects. -/
theorem dispatch_matched_unhandled_returns_true :
    Webhook.dispatch fnmatch
      { secret := none, handlers := [{ event := "pull_request", func := fun _ => false }] }
      { name := "pull_request", delivery_id := "1", signature := none,
        user_agent := "ua", payload := "p" } = true := by
  rfl

/-- Helper for C8: under the key/field well-formedness invariant, the supplier returned
for an installation id carries exactly that id. -/
theorem get_installation_token_supplier_id {J R : Type} (app_jwt : J) (requestor : R)
    (st : InstallationTokens J R) (hwf : wfInstallationTokens st = true) (i : Int) :
    (GithubApp.get_installation_token_supplier app_jwt requestor st i).1.installation_id = i := by
  unfold GithubApp.get_installation_token_supplier
  cases hf : st.find? (fun p => p.1 == i) with
  | none => simp
  | some q =>
    simp only
    have hmem := List.mem_of_find?_eq_some hf
    have hkey := List.find?_some hf
    have hfield : (q.2.installation_id == q.1) = true :=
      List.all_eq_true.mp hwf q hmem
    have h1 : q.1 = i := by simpa using hkey
    have h2 : q.2.installation_id = q.1 := by simpa using hfield
    rw [h2, h1]

/-- C8: `get_installation_token_supplier` is idempotent per installation id — a second
call with the same id returns the supplier the first call returned and leaves the
memoization dict unchanged — and suppliers returned for distinct ids are distinct
(their `installation_id` fields differ). -/
theorem get_installation_token_supplier_memoizes {J R : Type} (app_jwt : J) (requestor : R)
    (st : InstallationTokens J R) (hwf : wfInstallationTokens st = true) (i j : Int) :
    (GithubApp.get_installation_token_supplier app_jwt requestor
        (GithubApp.get_installation_token_supplier app_jwt requestor st i).2 i =
      GithubApp.get_installation_token_supplier app_jwt requestor st i) ∧
    ((GithubApp.get_installation_token_supplier app_jwt requestor st i).1.installation_id = i) ∧
    (i ≠ j →
      (GithubApp.get_installation_token_supplier app_jwt requestor st i).1 ≠
        (GithubApp.get_installation_token_supplier app_jwt requestor st j).1) := by
  refine ⟨?_, get_installation_token_supplier_id app_jwt requestor st hwf i, ?_⟩
  · cases hf : st.find? (fun p => p.1 == i) with
    | some p =>
      simp [GithubApp.get_installation_token_supplier, hf]
    | none =>
      simp [GithubApp.get_installation_token_supplier, hf, List.find?_append]
  · intro hij hcontra
    apply hij
    calc i = (GithubApp.get_installation_token_supplier app_jwt requestor st i).1.installation_id :=
          (get_installation_token_supplier_id app_jwt requestor st hwf i).symm
      _ = (GithubApp.get_installation_token_supplier app_jwt requestor st j).1.installation_id := by
          rw [hcontra]
      _ = j := get_installation_token_supplier_id app_jwt requestor st hwf j

/-- Witness for C8: starting from the empty dict, the suppliers returned for ids 1 and 2
are distinct, and the repeated call for id 1 returns the memoized pair. -/
theorem get_installation_token_supplier_memoizes_witness :
    (GithubApp.get_installation_token_supplier () ()
        (GithubApp.get_installation_token_supplier () () ([] : InstallationTokens Unit Unit) 1).2 1 =
      GithubApp.get_installation_token_supplier () () ([] : InstallationTokens Unit Unit) 1) ∧
    (GithubApp.get_installation_token_supplier () () ([] : InstallationTokens Unit Unit) 1).1 ≠
      (GithubApp.get_installation_token_supplier () () ([] : InstallationTokens Unit Unit) 2).1 :=
  ⟨(get_installation_token_supplier_memoizes () () [] rfl 1 2).1,
   (get_installation_token_supplier_memoizes () () [] rfl 1 2).2.2 (by decide)⟩

/-- C10: `accept_event` rejects with `InvalidRequest('missing required headers')` when any
of the four required headers is absent from the mapping or present with the empty string
as value — the guard tests Python truthiness, under which `''` and a missing key coincide. -/
theorem accept_event_empty_required_header (env : PyEnv) (headers : List (String × String))
    (raw_body : List Nat) (webhook_secret : Option String) (k : String)
    (hk : k = "X-GitHub-Event" ∨ k = "X-GitHub-Delivery" ∨ k = "User-Agent" ∨
      k = "Content-Type")
    (hv : hget headers k = none ∨ hget headers k = some "") :
    accept_event env headers raw_body webhook_secret =
      .error (.invalidRequest "missing required headers") := by
  have hts : truthy (hget headers k) = false := by
    rcases hv with hv | hv <;> rw [hv] <;> rfl
  rcases hk with rfl | rfl | rfl | rfl <;> simp [accept_event, hts]

/-- Witness for C10: a header mapping whose `User-Agent` is present but empty is rejected
as if the header were missing. -/
theorem accept_event_empty_required_header_witness :
    accept_event envConst
      [("X-GitHub-Event", "push"), ("X-GitHub-Delivery", "d1"), ("User-Agent", ""),
       ("Content-Type", "application/json")] [] none =
      .error (.invalidRequest "missing required headers") :=
  accept_event_empty_required_header envConst
    [("X-GitHub-Event", "push"), ("X-GitHub-Delivery", "d1"), ("User-Agent", ""),
     ("Content-Type", "application/json")] [] none "User-Agent"
    (Or.inr (Or.inr (Or.inl rfl))) (Or.inr rfl)

/-- C5: with `webhook_secret = None`, `accept_event` still copies
`signature_256 or signature_1` into the returned Event, so `Event.signature` is the raw
(unverified) header value rather than `None` — contradicting the claim and the field's
own doc comment ("Will only be set if a Webhook-secret is configured"). -/
theorem accept_event_signature_set_without_secret :
    accept_event envConst
      [("X-GitHub-Event", "push"), ("X-GitHub-Delivery", "d1"), ("User-Agent", "ua"),
       ("Content-Type", "application/json"), ("X-Hub-Signature-256", "sha256=aa")] [] none =
      .ok { name := "push", delivery_id := "d1", signature := some "sha256=aa",
            user_agent := "ua", payload := "body" } := by
  rfl

/-- Helper: reduction of `accept_event` past the required-header, missing-signature and
MIME checks; what remains is the signature-check stage followed by body decoding, exactly
as in the source. -/
theorem accept_event_unfold (env : PyEnv) (headers : List (String × String))
    (raw_body : List Nat) (webhook_secret : Option String)
    (hE : truthy (hget headers "X-GitHub-Event") = true)
    (hD : truthy (hget headers "X-GitHub-Delivery") = true)
    (hU : truthy (hget headers "User-Agent") = true)
    (hC : truthy (hget headers "Content-Type") = true)
    (hsig : (webhook_secret.isSome && !(truthy (hget headers "X-Hub-Signature") ||
      truthy (hget headers "X-Hub-Signature-256"))) = false)
    (params : List (String × String))
    (hmime : get_mime_components ((hget headers "Content-Type").getD "") =
      .ok ("application/json", params)) :
    accept_event env headers raw_body webhook_secret =
      (match (match webhook_secret with
              | none => Except.ok ()
              | some s =>
                if truthy (hget headers "X-Hub-Signature-256") then
                  check_signature env ((hget headers "X-Hub-Signature-256").getD "")
                    raw_body (env.asciiEncode s) "sha256"
                else if truthy (hget headers "X-Hub-Signature") then
                  check_signature env ((hget headers "X-Hub-Signature").getD "")
                    raw_body (env.asciiEncode s) "sha1"
                else .error .runtimeError) with
       | .error e => .error e
       | .ok _ =>
         match env.decode (selectedEncoding params) raw_body with
         | .error e => .error e
         | .ok decoded =>
           match env.jsonLoads decoded with
           | .error e => .error e
           | .ok payload =>
             .ok { name := (hget headers "X-GitHub-Event").getD "",
                   delivery_id := (hget headers "X-GitHub-Delivery").getD "",
                   signature := pyOr (hget headers "X-Hub-Signature-256")
                     (hget headers "X-Hub-Signature"),
                   user_agent := (hget headers "User-Agent").getD "",
                   payload := payload }) := by
  simp only [accept_event, hE, hD, hU, hC, hsig, hmime]
  simp
  rfl

/-- Helper: for a supported algorithm, `check_signature` succeeds exactly on the string
`"{algo}=" + hexdigest` and otherwise raises `SignatureMismatchException`. -/
theorem check_signature_eq (env : PyEnv) (sig : String) (payload : List Nat)
    (secret : List Nat) (algo : String) (halgo : algo = "sha1" ∨ algo = "sha256") :
    check_signature env sig payload secret algo =
      if sig = algo ++ "=" ++ env.hmacHex algo secret payload then .ok ()
      else .error (.signatureMismatchException sig
        (algo ++ "=" ++ env.hmacHex algo secret payload)) := by
  rcases halgo with rfl | rfl <;> simp [check_signature, compute_signature]

/-- Helper: folding the literal algorithm tag into one string literal. -/
theorem sha256_eq_fold (x : String) : "sha256" ++ "=" ++ x = "sha256=" ++ x := rfl

/-- Helper: folding the literal algorithm tag into one string literal. -/
theorem sha1_eq_fold (x : String) : "sha1" ++ "=" ++ x = "sha1=" ++ x := rfl

/-- C4: with a secret configured and all required headers present, `accept_event`
(1) rejects with `InvalidRequest` when neither signature header is truthy;
(2) keeps `SignatureMismatchException` a different error from `InvalidRequest`;
(3) verifies `X-Hub-Signature-256` with sha256 whenever that header is truthy — a
mismatch surfaces as `SignatureMismatchException` regardless of `X-Hub-Signature`, and a
success yields an Event whose `signature` is that header's value;
(4) falls back to `X-Hub-Signature` with sha1 when the sha256 header is not truthy, with
the analogous mismatch/success behavior. -/
theorem accept_event_signature_preference (env : PyEnv) (headers : List (String × String))
    (raw_body : List Nat) (s : String)
    (hE : truthy (hget headers "X-GitHub-Event") = true)
    (hD : truthy (hget headers "X-GitHub-Delivery") = true)
    (hU : truthy (hget headers "User-Agent") = true)
    (hC : truthy (hget headers "Content-Type") = true) :
    (truthy (hget headers "X-Hub-Signature") = false →
      truthy (hget headers "X-Hub-Signature-256") = false →
      accept_event env headers raw_body (some s) =
        .error (.invalidRequest
          "webhook secret is configured but no signature header was received")) ∧
    (∀ p c m, PyError.signatureMismatchException p c ≠ PyError.invalidRequest m) ∧
    (∀ params, get_mime_components ((hget headers "Content-Type").getD "") =
        .ok ("application/json", params) →
      ∀ v, hget headers "X-Hub-Signature-256" = some v → v ≠ "" →
        (v ≠ "sha256=" ++ env.hmacHex "sha256" (env.asciiEncode s) raw_body →
          accept_event env headers raw_body (some s) =
            .error (.signatureMismatchException v
              ("sha256=" ++ env.hmacHex "sha256" (env.asciiEncode s) raw_body))) ∧
        (∀ ev, accept_event env headers raw_body (some s) = .ok ev →
          ev.signature = some v)) ∧
    (∀ params, get_mime_components ((hget headers "Content-Type").getD "") =
        .ok ("application/json", params) →
      truthy (hget headers "X-Hub-Signature-256") = false →
      ∀ v1, hget headers "X-Hub-Signature" = some v1 → v1 ≠ "" →
        (v1 ≠ "sha1=" ++ env.hmacHex "sha1" (env.asciiEncode s) raw_body →
          accept_event env headers raw_body (some s) =
            .error (.signatureMismatchException v1
              ("sha1=" ++ env.hmacHex "sha1" (env.asciiEncode s) raw_body))) ∧
        (∀ ev, accept_event env headers raw_body (some s) = .ok ev →
          ev.signature = some v1)) := by
  refine ⟨?_, ?_, ?_, ?_⟩
  · intro h1 h256
    simp [accept_event, hE, hD, hU, hC, h1, h256]
  · intro p c m h
    exact PyError.noConfusion h
  · intro params hmime v hv hvne
    have hvE : v.isEmpty = false := by
      rw [Bool.eq_false_iff]
      intro h
      exact hvne ((String.isEmpty_iff v).mp h)
    have h256t : truthy (hget headers "X-Hub-Signature-256") = true := by
      rw [hv]
      simp [truthy, hvE]
    have hsig : (((some s : Option String)).isSome &&
        !(truthy (hget headers "X-Hub-Signature") ||
          truthy (hget headers "X-Hub-Signature-256"))) = false := by
      simp [h256t]
    have hred := accept_event_unfold env headers raw_body (some s) hE hD hU hC hsig params hmime
    rw [h256t, hv] at hred
    simp only [Option.getD_some, if_true] at hred
    rw [check_signature_eq env v raw_body (env.asciiEncode s) "sha256" (Or.inr rfl),
      sha256_eq_fold] at hred
    constructor
    · intro hne
      rw [hred]
      simp [hne]
    · intro ev hok
      by_cases hvc : v = "sha256=" ++ env.hmacHex "sha256" (env.asciiEncode s) raw_body
      · subst hvc
        rw [hred] at hok
        simp only [eq_self_iff_true, ite_true] at hok
        rcases hd : env.decode (selectedEncoding params) raw_body with e | d
        · rw [hd] at hok
          simp at hok
        · rw [hd] at hok
          simp only [] at hok
          rcases hj : env.jsonLoads d with e | p
          · rw [hj] at hok
            simp at hok
          · rw [hj] at hok
            simp only [Except.ok.injEq] at hok
            rw [← hok]
            simp [pyOr, truthy, hvE]
      · rw [hred] at hok
        simp [hvc] at hok
  · intro params hmime h256f v1 hv1 hv1ne
    have hvE : v1.isEmpty = false := by
      rw [Bool.eq_false_iff]
      intro h
      exact hv1ne ((String.isEmpty_iff v1).mp h)
    have h1t : truthy (hget headers "X-Hub-Signature") = true := by
      rw [hv1]
      simp [truthy, hvE]
    have hsig : (((some s : Option String)).isSome &&
        !(truthy (hget headers "X-Hub-Signature") ||
          truthy (hget headers "X-Hub-Signature-256"))) = false := by
      simp [h1t]
    have hred := accept_event_unfold env headers raw_body (some s) hE hD hU hC hsig params hmime
    rw [h256f, h1t, hv1] at hred
    simp only [Option.getD_some, if_true, Bool.false_eq_true, if_false] at hred
    rw [check_signature_eq env v1 raw_body (env.asciiEncode s) "sha1" (Or.inl rfl),
      sha1_eq_fold] at hred
    constructor
    · intro hne
      rw [hred]
      simp [hne]
    · intro ev hok
      by_cases hvc : v1 = "sha1=" ++ env.hmacHex "sha1" (env.asciiEncode s) raw_body
      · subst hvc
        rw [hred] at hok
        simp only [eq_self_iff_true, ite_true] at hok
        rcases hd : env.decode (selectedEncoding params) raw_body with e | d
        · rw [hd] at hok
          simp at hok
        · rw [hd] at hok
          simp only [] at hok
          rcases hj : env.jsonLoads d with e | p
          · rw [hj] at hok
            simp at hok
          · rw [hj] at hok
            simp only [Except.ok.injEq] at hok
            rw [← hok]
            simp [pyOr, h256f]
      · rw [hred] at hok
        simp [hvc] at hok

/-- Witness for C4: with both signature headers present — the sha1 one valid for the
concrete environment, the sha256 one not — `accept_event` verifies the sha256 header and
reports its mismatch, never consulting the valid sha1 header. -/
theorem accept_event_signature_preference_witness :
    accept_event envConst
      [("X-GitHub-Event", "push"), ("X-GitHub-Delivery", "d1"), ("User-Agent", "ua"),
       ("Content-Type", "application/json"), ("X-Hub-Signature", "sha1=aa"),
       ("X-Hub-Signature-256", "sha256=bb")] [] (some "sec") =
      .error (.signatureMismatchException "sha256=bb" "sha256=aa") :=
  ((accept_event_signature_preference envConst
      [("X-GitHub-Event", "push"), ("X-GitHub-Delivery", "d1"), ("User-Agent", "ua"),
       ("Content-Type", "application/json"), ("X-Hub-Signature", "sha1=aa"),
       ("X-Hub-Signature-256", "sha256=bb")] [] "sec"
      rfl rfl rfl rfl).2.2.1 [] rfl "sha256=bb" rfl (by decide)).1 (by decide)

/-- C6 counterexample: a `charset` parameter is NOT used — `accept_event` reads only a
parameter literally named `encoding`, so `application/json; charset=latin-1` decodes with
the default UTF-8 rather than latin-1 (the probing decoder records the encoding actually
used in the payload). -/
theorem accept_event_charset_not_used :
    accept_event envProbe
      [("X-GitHub-Event", "push"), ("X-GitHub-Delivery", "d1"), ("User-Agent", "ua"),
       ("Content-Type", "application/json; charset=latin-1")] [] none =
      .ok { name := "push", delivery_id := "d1", signature := none, user_agent := "ua",
            payload := "UTF-8" } ∧ ("UTF-8" : String) ≠ "latin-1" := by
  constructor
  · rfl
  · decide

/-- C6 (amended): with the required headers present (no secret configured), `accept_event`
parses the content type into a MIME type plus semicolon-separated parameters and rejects
MIME types other than `application/json` with `InvalidRequest`; the body is decoded with
`selectedEncoding params` — the value of the parameter whose key is literally `encoding`
(keys are not whitespace-stripped, and `charset` is never consulted), UTF-8 when no such
key exists. -/
theorem accept_event_mime_and_encoding (env : PyEnv) (headers : List (String × String))
    (raw_body : List Nat)
    (hE : truthy (hget headers "X-GitHub-Event") = true)
    (hD : truthy (hget headers "X-GitHub-Delivery") = true)
    (hU : truthy (hget headers "User-Agent") = true)
    (hC : truthy (hget headers "Content-Type") = true) :
    (∀ mt params, get_mime_components ((hget headers "Content-Type").getD "") =
        .ok (mt, params) → mt ≠ "application/json" →
      accept_event env headers raw_body none =
        .error (.invalidRequest ("expected Content-Type: application/json, got " ++
          (hget headers "Content-Type").getD ""))) ∧
    (∀ params, get_mime_components ((hget headers "Content-Type").getD "") =
        .ok ("application/json", params) →
      accept_event env headers raw_body none =
        (match env.decode (selectedEncoding params) raw_body with
         | .error e => .error e
         | .ok decoded =>
           match env.jsonLoads decoded with
           | .error e => .error e
           | .ok payload =>
             .ok { name := (hget headers "X-GitHub-Event").getD "",
                   delivery_id := (hget headers "X-GitHub-Delivery").getD "",
                   signature := pyOr (hget headers "X-Hub-Signature-256")
                     (hget headers "X-Hub-Signature"),
                   user_agent := (hget headers "User-Agent").getD "",
                   payload := payload })) ∧
    (∀ ps v, selectedEncoding (ps ++ [("encoding", v)]) = v) ∧
    (∀ ps, (∀ p ∈ ps, p.1 ≠ "encoding") → selectedEncoding ps = "UTF-8") := by
  refine ⟨?_, ?_, ?_, ?_⟩
  · intro mt params hmime hne
    simp [accept_event, hE, hD, hU, hC, hmime, hne]
  · intro params hmime
    have hsig : (((none : Option String)).isSome &&
        !(truthy (hget headers "X-Hub-Signature") ||
          truthy (hget headers "X-Hub-Signature-256"))) = false := by
      simp
    have hred := accept_event_unfold env headers raw_body none hE hD hU hC hsig params hmime
    rw [hred]
  · intro ps v
    simp [selectedEncoding, dictGet, List.reverse_append, List.find?]
  · intro ps hps
    have hnone : ps.reverse.find? (fun p => p.1 == "encoding") = none := by
      rw [List.find?_eq_none]
      intro x hx
      simp only [beq_iff_eq]
      exact hps x (List.mem_reverse.mp hx)
    simp [selectedEncoding, dictGet, hnone]

/-- Witness for C6 (amended): `application/json;encoding=latin-1` (key exactly
`encoding`) selects latin-1, observable via the probing decoder. -/
theorem accept_event_mime_and_encoding_witness :
    accept_event envProbe
      [("X-GitHub-Event", "push"), ("X-GitHub-Delivery", "d1"), ("User-Agent", "ua"),
       ("Content-Type", "application/json;encoding=latin-1")] [] none =
      .ok { name := "push", delivery_id := "d1", signature := none, user_agent := "ua",
            payload := "latin-1" } := by
  have h := (accept_event_mime_and_encoding envProbe
      [("X-GitHub-Event", "push"), ("X-GitHub-Delivery", "d1"), ("User-Agent", "ua"),
       ("Content-Type", "application/json;encoding=latin-1")] []
      rfl rfl rfl rfl).2.1 [("encoding", "latin-1")] rfl
  exact h.trans rfl

end GithubBotApi
